import Mathlib

/-!
Verification of the RetroSerialHub serial/TCP hub.

This file gives a shallow embedding, in Lean, of the parts of the
repository that the verified claims are about:

* the XMODEM/YMODEM transfer engine of rsh_files.py
  (frame construction, block numbering, the receive loop, and the
  unbounded/bounded wait loops);
* the port registry (ACTIVE_PORTS / SURRENDERED_PORTS) of
  RETRO_SERIAL_HUB.py together with the take-over sequence of
  rsh_bridge.py;
* the session-level ATM dispatch and the raw-byte routing of
  RETRO_SERIAL_HUB.bridge_loop;
* the stage-6 finalization (take over, open retries, failure path) of
  rsh_bridge.handle_input;
* the per-port worker retry/fatal logic of RETRO_SERIAL_HUB.port_worker;
* the byte normalization of rsh_bridge.handle_raw_input and
  rsh_bridge.handle_input_runtime.

Bytes are modelled as Nat (a byte on the wire is < 256; masking in the
source is written explicitly as % 256).  Loops of the source that
terminate by consuming input are written with an explicit structural
fuel argument, with the entry point supplying the input length as fuel;
one unit of fuel corresponds to one iteration of the source loop, and
every iteration of the modelled loops consumes at least one input byte,
so the supplied fuel is always sufficient.
-/

set_option maxRecDepth 40000

namespace RetroSerialHub

/-! ### Transfer-engine constants (rsh_files.py lines 27-32) -/

def SOH : Nat := 0x01

def STX : Nat := 0x02

def EOT : Nat := 0x04

def ACK : Nat := 0x06

def NAK : Nat := 0x15

def CAN : Nat := 0x18

/-! ### XMODEM send (rsh_files.py, xmodem_send, lines 158-227)

The sender reads the file 128 bytes at a time (`f.read(128)`), pads a
short final chunk with 0x1A, and frames each chunk.  `chunksOfAux` is
the read loop; its fuel is the file length (each iteration consumes at
least one byte). -/

def chunksOfAux (fuel : Nat) (f : List Nat) : List (List Nat) :=
  match fuel, f with
  | 0, _ => []
  | _, [] => []
  | fuel + 1, a :: l => ((a :: l).take 128) :: chunksOfAux fuel ((a :: l).drop 128)

/-- The successive `f.read(128)` results of xmodem_send (line 180). -/
def chunksOf (f : List Nat) : List (List Nat) :=
  chunksOfAux f.length f

/-- Padding of a short final chunk (lines 196-197):
`chunk += bytes([0x1A]) * (128 - len(chunk))`.  On a full 128-byte chunk
this appends nothing. -/
def padChunk (c : List Nat) : List Nat :=
  c ++ List.replicate (128 - c.length) 0x1A

/-- One data frame (lines 199-205): SOH, block number masked to a byte,
its complement, the 128 data bytes, then `sum(chunk) & 0xFF`. -/
def xmodemFrame (block_num : Nat) (chunk : List Nat) : List Nat :=
  SOH :: (block_num % 256) :: (255 - block_num % 256) :: (chunk ++ [chunk.sum % 256])

/-- The sequence of data frames written by the send loop when every
block is ACKed: the block counter starts at the given value and each
ACK advances it by `(block_num + 1) & 0xFF` (line 213). -/
def sendFramesAux : Nat → List (List Nat) → List (List Nat)
  | _, [] => []
  | b, c :: cs => xmodemFrame b (padChunk c) :: sendFramesAux ((b + 1) % 256) cs

/-- All data frames of `xmodem_send` for a given file, block counter
starting at 1 (line 178), under an all-ACK receiver. -/
def xmodemSendFrames (f : List Nat) : List (List Nat) :=
  sendFramesAux 1 (chunksOf f)

/-- Number of data blocks the sender emits for a file. -/
def numBlocks (f : List Nat) : Nat :=
  (chunksOf f).length

/-- Closed-form description of the i-th 128-byte read of the file. -/
def specChunk (f : List Nat) (i : Nat) : List Nat :=
  (f.drop (128 * i)).take 128

/-- Closed-form description of the i-th frame payload after padding. -/
def specData (f : List Nat) (i : Nat) : List Nat :=
  specChunk f i ++ List.replicate (128 - (specChunk f i).length) 0x1A

/-! ### XMODEM receive (rsh_files.py, xmodem_receive, lines 230-270) -/

/-- The strip loop of lines 261-262:
`while received and received[-1] == 0x1A: received = received[:-1]`. -/
def stripTrailingPad (l : List Nat) : List Nat :=
  (l.reverse.dropWhile (fun b => b == 0x1A)).reverse

/-- Outcome of the receive loop on a given incoming byte stream.
`committed` is produced only by the EOT branch (lines 259-266), which
writes the stripped buffer to the destination file; `cancelled` is the
CAN branch (lines 268-270); `starved` means the input stream ran out
while the loop was still waiting (the source loop would simply keep
polling). -/
inductive RecvResult
  | committed (file : List Nat)
  | cancelled
  | starved
deriving DecidableEq

/-- The receive loop (lines 236-270) over the stream of incoming bytes.
Per iteration it reads one byte `c`; on SOH it reads 131 further bytes
(`pkt`), re-NAKs on a short read, checks block number, complement and
checksum (NAK on mismatch), and otherwise appends the 128 data bytes
`pkt[2:-1]` and advances `block_num = (block_num + 1) & 0xFF`.
Fuel counts loop iterations; each iteration consumes at least one input
byte, so `input.length` is sufficient fuel. -/
def xmodem_receive_aux (fuel : Nat) (block_num : Nat) (received : List Nat)
    (input : List Nat) : RecvResult :=
  match fuel, input with
  | 0, _ => .starved
  | _, [] => .starved
  | fuel + 1, c :: rest =>
    if c = SOH then
      if (rest.take 131).length < 131 then
        xmodem_receive_aux fuel block_num received (rest.drop 131)
      else if (rest.take 131).getD 0 0 ≠ block_num % 256
          ∨ (rest.take 131).getD 1 0 ≠ 255 - (rest.take 131).getD 0 0 then
        xmodem_receive_aux fuel block_num received (rest.drop 131)
      else if (((rest.take 131).drop 2).dropLast).sum % 256 ≠ (rest.take 131).getLastD 0 then
        xmodem_receive_aux fuel block_num received (rest.drop 131)
      else
        xmodem_receive_aux fuel ((block_num + 1) % 256)
          (received ++ ((rest.take 131).drop 2).dropLast) (rest.drop 131)
    else if c = EOT then
      .committed (stripTrailingPad received)
    else if c = CAN then
      .cancelled
    else
      xmodem_receive_aux fuel block_num received rest

/-- The receive loop started from an arbitrary state. -/
def xmodem_receive_from (block_num : Nat) (received : List Nat)
    (input : List Nat) : RecvResult :=
  xmodem_receive_aux input.length block_num received input

/-- `xmodem_receive` proper: `block_num = 1`, empty buffer (lines 232-233). -/
def xmodem_receive (input : List Nat) : RecvResult :=
  xmodem_receive_from 1 [] input

/-- Round trip: the byte stream produced by an all-ACKed `xmodem_send`
(data frames then EOT, lines 180-194) fed to `xmodem_receive`. -/
def xmodemRoundTrip (f : List Nat) : RecvResult :=
  xmodem_receive ((xmodemSendFrames f).flatten ++ [EOT])

/-! ### Wait loops of the transfer engine (claim C8)

Each loop is modelled over the list of its poll iterations: one list
element per iteration of the source loop, `none` meaning
`ser.in_waiting` was falsy on that iteration, `some b` meaning the byte
`b` was read.  For the loops the source bounds with a wall-clock
deadline (`while time.time() < deadline`, with a sleep in every
iteration) the deadline makes the number of iterations finite, and
exhausting the list is exactly the deadline expiring.  For the loops
the source writes as `while True` with no deadline there is no such
bound; exhausting the list just means the loop is still running after
that many iterations. -/

inductive LoopStatus
  | exited
  | stillRunning
deriving DecidableEq

inductive SendWaitOutcome
  | acked
  | cancelledByReceiver
  | timedOutAborted
deriving DecidableEq

/-- The per-block reply wait of xmodem_send (rsh_files.py lines 208-223):
bounded by `ack_deadline = time.time() + 10.0`.  ACK exits with success,
NAK resends the identical frame and keeps waiting, CAN aborts, and the
deadline expiring reports "Timeout waiting for ACK/NAK. Aborting." -/
def xmodem_send_ack_wait : List (Option Nat) → SendWaitOutcome
  | [] => .timedOutAborted
  | none :: rest => xmodem_send_ack_wait rest
  | some b :: rest =>
    if b = ACK then .acked
    else if b = NAK then xmodem_send_ack_wait rest
    else if b = CAN then .cancelledByReceiver
    else xmodem_send_ack_wait rest

/-- The wait for the next control byte in xmodem_receive (rsh_files.py
lines 236-241): `while True:` with no deadline check anywhere in the
loop body. -/
def xmodem_receive_wait : List (Option Nat) → LoopStatus
  | [] => .stillRunning
  | none :: rest => xmodem_receive_wait rest
  | some _ :: _ => .exited

/-- The wait for the ACK of the YMODEM header block (rsh_files.py lines
296-301): `while True:` with no deadline; a non-ACK byte is ignored. -/
def ymodem_header_ack_wait : List (Option Nat) → LoopStatus
  | [] => .stillRunning
  | none :: rest => ymodem_header_ack_wait rest
  | some b :: rest =>
    if b = ACK then .exited else ymodem_header_ack_wait rest

/-- The wait for the ACK of the final EOT in ymodem_send (rsh_files.py
lines 334-340): `while True:` with no deadline; a non-ACK byte is
ignored. -/
def ymodem_eot_ack_wait : List (Option Nat) → LoopStatus
  | [] => .stillRunning
  | none :: rest => ymodem_eot_ack_wait rest
  | some b :: rest =>
    if b = ACK then .exited else ymodem_eot_ack_wait rest

/-! ### Byte normalization of the bridge relay (rsh_bridge.py)

Python `bytes.replace(pat, rep)` for a nonempty pattern: scan left to
right, replacing non-overlapping occurrences.  Fuel is the length of
the scanned bytes; every step consumes at least one byte. -/

def pyReplaceAux (fuel : Nat) (s pat rep : List Nat) : List Nat :=
  match fuel, s with
  | 0, s => s
  | _, [] => []
  | fuel + 1, a :: s2 =>
    if pat.isPrefixOf (a :: s2) && !pat.isEmpty then
      rep ++ pyReplaceAux fuel ((a :: s2).drop pat.length) pat rep
    else
      a :: pyReplaceAux fuel s2 pat rep

/-- `s.replace(pat, rep)` on bytes (used with nonempty patterns only). -/
def pyReplace (s pat rep : List Nat) : List Nat :=
  pyReplaceAux s.length s pat rep

/-- Bytes written to the bridged port by rsh_bridge.handle_raw_input
(line 294), the live per-character passthrough path:
`out = data.replace(CRLF, CRLF).replace(LF, CRLF).replace(CR, CRLF)`. -/
def handle_raw_input_out (data : List Nat) : List Nat :=
  pyReplace (pyReplace (pyReplace data [13, 10] [13, 10]) [10] [13, 10]) [13] [13, 10]

/-- Bytes written to the bridged port by rsh_bridge.handle_input_runtime
for a nonempty typed line with raw bytes available (lines 376-377):
the same replace chain, then a trailing CRLF. -/
def handle_input_runtime_out (raw_line : List Nat) : List Nat :=
  pyReplace (pyReplace (pyReplace raw_line [13, 10] [13, 10]) [10] [13, 10]) [13] [13, 10]
    ++ [13, 10]

/-! ### Port registry (RETRO_SERIAL_HUB.py lines 31-33, rsh_bridge.py)

`ACTIVE_PORTS` is a dict mapping an upper-cased port name to the worker
record that owns it; `SURRENDERED_PORTS` is a set of port names.  They
are mutated by the primitive operations below, with no lock anywhere in
the source. -/

structure Registry where
  owned : List (String × String)
  surrendered : List String
deriving DecidableEq

/-- The primitive mutations of the registry found in the source:
`register` is `ACTIVE_PORTS[p] = {...}` (RETRO_SERIAL_HUB.py line 253),
`unregister` is `ACTIVE_PORTS.pop(p, None)` (lines 260, 273),
`surrenderAdd` is `SURRENDERED_PORTS.add(p)` (rsh_bridge.py line 202),
`activePop` is `active.pop(p, None)` (rsh_bridge.py line 207), and
`restore` is `surrendered_ports.discard(p)` (rsh_bridge.py line 349). -/
inductive RegOp
  | register (p w : String)
  | unregister (p : String)
  | surrenderAdd (p : String)
  | activePop (p : String)
  | restore (p : String)

def applyOp (r : Registry) : RegOp → Registry
  | .register p w =>
      { r with owned := (p, w) :: r.owned.filter (fun e => e.1 != p) }
  | .unregister p =>
      { r with owned := r.owned.filter (fun e => e.1 != p) }
  | .surrenderAdd p =>
      { r with surrendered := if p ∈ r.surrendered then r.surrendered else p :: r.surrendered }
  | .activePop p =>
      { r with owned := r.owned.filter (fun e => e.1 != p) }
  | .restore p =>
      { r with surrendered := r.surrendered.filter (fun q => q != p) }

def applyOps (r : Registry) (ops : List RegOp) : Registry :=
  ops.foldl applyOp r

/-- The take-over sequence of rsh_bridge.handle_input (lines 198-207):
first `surrendered.add(port_name.upper())` (line 202), then, after
closing the owner handle, `active.pop(port_name.upper(), None)`
(line 207) — in that order. -/
def takeOverOps (p : String) : List RegOp :=
  [.surrenderAdd p, .activePop p]

def ownedPorts (r : Registry) : List String :=
  r.owned.map Prod.fst

/-- The §3/§8 registry invariant for a port: not simultaneously owned
and surrendered. -/
def portInvariant (r : Registry) (p : String) : Prop :=
  ¬ (p ∈ ownedPorts r ∧ p ∈ r.surrendered)

/-- A registry in which COM3 is owned by worker PortA, nothing
surrendered. -/
def regSample : Registry :=
  { owned := [("COM3", "PortA")], surrendered := [] }

/-! ### Session-level ATM dispatch and raw-byte routing
(RETRO_SERIAL_HUB.py, bridge_loop) -/

inductive Mode
  | menu
  | bbs
  | files
  | textLib
  | url
  | notes
  | wargames
  | ai
  | combridgePrompt
  | combridge
deriving DecidableEq

/-- The session variables of bridge_loop relevant to ATM handling:
`mode`, whether `tcp_sock` is open, whether a live `bridge_session`
(with its `bridge_serial` and `port_name`) exists, the shared
SURRENDERED_PORTS set, the name of the session's own port, and whether
bridge_loop has returned (session terminated). -/
structure SessionState where
  mode : Mode
  tcpOpen : Bool
  bridgeOpen : Bool
  bridgedPort : Option String
  surrendered : List String
  ownPort : String
  exited : Bool
deriving DecidableEq

/-- The global ATM branch of bridge_loop (lines 446-479): close
`tcp_sock` if open (447-450), close the bridge serial and drop
`bridge_session` (452-468; rsh_bridge defines no close_bridge_session,
so the else branch closing `bridge_serial` runs), then, if the
session's own port is in SURRENDERED_PORTS, exit the session (470-476),
otherwise return to MENU (477-478).  No operation on SURRENDERED_PORTS
occurs anywhere in this branch. -/
def atmDispatch (s : SessionState) : SessionState :=
  let s2 : SessionState :=
    { s with tcpOpen := false, bridgeOpen := false, bridgedPort := none }
  if s2.ownPort ∈ s2.surrendered then
    { s2 with exited := true }
  else
    { s2 with mode := Mode.menu }

/-- Which consumer handles a chunk of bytes read from the local serial
line at the top of bridge_loop: the COMBRIDGE raw branch (lines
339-367, which forwards via handle_raw_input and then `continue`s past
all line parsing), the BBS raw branch (lines 374-427), or the ordinary
line-assembly-and-dispatch path (lines 429 on), which is the only path
on which the ATM test (line 446) runs. -/
inductive ChunkRoute
  | rawBridgeForward
  | rawBBSForward
  | lineAssembly
deriving DecidableEq

def routeOf (s : SessionState) : ChunkRoute :=
  if s.mode = Mode.combridge ∧ s.bridgeOpen = true then .rawBridgeForward
  else if s.mode = Mode.bbs ∧ s.tcpOpen = true then .rawBBSForward
  else .lineAssembly

/-- A session in bridge-runtime mode: bridge to COM3 live, COM3 taken
over from its worker and therefore in SURRENDERED_PORTS; the session
itself runs on COM7. -/
def combridgeSample : SessionState :=
  { mode := Mode.combridge, tcpOpen := false, bridgeOpen := true,
    bridgedPort := some "COM3", surrendered := ["COM3"], ownPort := "COM7",
    exited := false }

/-! ### Bridge stage-6 finalization (rsh_bridge.py, handle_input,
lines 160-258) -/

structure BridgeStageState where
  active : List String
  surrendered : List String
  stage : Nat
deriving DecidableEq

inductive BridgeOutcome
  | reprompt (st : BridgeStageState)
  | openBridge (st : BridgeStageState) (port : String)
deriving DecidableEq

/-- The tail of handle_input stage 6 once all fields are collected
(lines 174-258).  `active` is the set of port names registered in
ACTIVE_PORTS (each registered entry carries a live serial handle),
`openOk i` tells whether the i-th `serial.Serial(...)` attempt of the
retry loop (lines 225-242, `for attempt in range(6)`) succeeds.
If the target port is owned by this process, the take-over runs first
(lines 195-209: add to surrendered, close owner, pop from active).
If all six open attempts fail (`last_exc is not None`, lines 244-249),
the handler reports the error, resets `sess['stage'] = 0` and
re-renders the intro — leaving the surrendered set untouched.
On success it returns the OPEN_BRIDGE action (line 258). -/
def bridge_finalize (active surrendered : List String) (port : String)
    (openOk : Nat → Bool) : BridgeOutcome :=
  let surrendered1 :=
    if port ∈ active then
      (if port ∈ surrendered then surrendered else port :: surrendered)
    else surrendered
  let active1 :=
    if port ∈ active then active.filter (fun q => q != port) else active
  match (List.range 6).find? openOk with
  | none => .reprompt { active := active1, surrendered := surrendered1, stage := 0 }
  | some _ => .openBridge { active := active1, surrendered := surrendered1, stage := 6 } port

/-! ### Port worker lifecycle (RETRO_SERIAL_HUB.py, port_worker,
lines 236-286) -/

/-- Left-to-right scan for an occurrence of `pat` in `s`. -/
def listContains (s pat : List Char) : Bool :=
  match s with
  | [] => pat.isEmpty
  | _ :: t => pat.isPrefixOf s || listContains t pat

/-- Python `pat in msg` for the substring tests of line 265. -/
def containsSub (msg pat : String) : Bool :=
  listContains msg.toList pat.toList

/-- The fatal-error test of port_worker (line 265):
`"FileNotFoundError" in str(e) or "cannot find the file" in str(e)`,
applied inside `except serial.SerialException`. -/
def is_fatal_open_error (msg : String) : Bool :=
  containsSub msg "FileNotFoundError" || containsSub msg "cannot find the file"

/-- One pass through the `while True` body of port_worker, seen from
outside: either the open succeeded (and bridge_loop then either
returned normally, `excAfter = none`, or raised an exception with the
given serial-exception flag and message), or `serial.Serial(...)`
itself raised. -/
inductive WorkerEvent
  | opened (excAfter : Option (Bool × String))
  | openFailed (isSerialExc : Bool) (msg : String)

inductive WorkerStatus
  | running
  | stoppedPermanently
deriving DecidableEq

structure WorkerOutcomeState where
  status : WorkerStatus
  everOpened : Bool
deriving DecidableEq

/-- Whether an exception reaching the handlers of lines 263-286 makes
the worker return permanently: only the `serial.SerialException` branch
(line 263) performs the device-not-found test (lines 264-267) and
returns; every other path (surrendered wait, 5s retry, generic handler)
continues the loop. -/
def worker_fatal (isSerialExc : Bool) (msg : String) : Bool :=
  isSerialExc && is_fatal_open_error msg

/-- The worker loop folded over a trace of passes.  `ever` records
whether some open has succeeded so far; note that the source consults
only the exception message, never this history. -/
def worker_run_from (ever : Bool) : List WorkerEvent → WorkerOutcomeState
  | [] => { status := .running, everOpened := ever }
  | .opened none :: rest => worker_run_from true rest
  | .opened (some (isSer, msg)) :: rest =>
      if worker_fatal isSer msg then { status := .stoppedPermanently, everOpened := true }
      else worker_run_from true rest
  | .openFailed isSer msg :: rest =>
      if worker_fatal isSer msg then { status := .stoppedPermanently, everOpened := ever }
      else worker_run_from ever rest

def worker_run (events : List WorkerEvent) : WorkerOutcomeState :=
  worker_run_from false events

/-- The message of the SerialException raised when a previously opened
device disappears and a reopen is attempted (pyserial wraps the OS
error; its text contains FileNotFoundError on Windows). -/
def fnfMsg : String :=
  "could not open port COM3: FileNotFoundError 2 The system cannot find the file specified"

/-! ### Concrete inputs used by counterexamples and witnesses -/

/-- A 150-byte file whose last byte is not 0x1A. -/
def sampleFile150 : List Nat :=
  List.replicate 149 3 ++ [7]

/-- A file of exactly 256 full blocks (32768 bytes). -/
def bigFile : List Nat :=
  List.replicate 32768 0

end RetroSerialHub

namespace RetroSerialHub

/-! ## Closed forms for the sender -/

lemma chunksOfAux_get? :
    ∀ (fuel : Nat) (f : List Nat) (i : Nat), f.length ≤ fuel →
      (chunksOfAux fuel f).get? i
        = if 128 * i < f.length then some ((f.drop (128 * i)).take 128) else none := by
  intro fuel
  induction fuel with
  | zero =>
    intro f i h
    have hf : f = [] := List.length_eq_zero.mp (Nat.le_zero.mp h)
    subst hf
    simp [chunksOfAux]
  | succ fuel ih =>
    intro f i h
    match f, i with
    | [], i => simp [chunksOfAux]
    | a :: l, 0 =>
      simp [chunksOfAux]
    | a :: l, i + 1 =>
      have hlen : ((a :: l).drop 128).length ≤ fuel := by
        simp only [List.length_drop, List.length_cons] at *
        omega
      have := ih ((a :: l).drop 128) i hlen
      simp only [chunksOfAux, List.get?_cons_succ, this, List.drop_drop,
        List.length_drop, List.length_cons]
      have harith : 128 + 128 * i = 128 * (i + 1) := by ring
      rw [harith]
      by_cases hc : 128 * (i + 1) < l.length + 1
      · rw [if_pos (by omega : 128 * i < l.length + 1 - 128), if_pos hc]
      · rw [if_neg (by omega : ¬ 128 * i < l.length + 1 - 128), if_neg hc]

lemma chunksOf_get? (f : List Nat) (i : Nat) :
    (chunksOf f).get? i
      = if 128 * i < f.length then some ((f.drop (128 * i)).take 128) else none :=
  chunksOfAux_get? f.length f i le_rfl

lemma chunksOfAux_length :
    ∀ (fuel : Nat) (f : List Nat), f.length ≤ fuel →
      (chunksOfAux fuel f).length = (f.length + 127) / 128 := by
  intro fuel
  induction fuel with
  | zero =>
    intro f h
    have hf : f = [] := List.length_eq_zero.mp (Nat.le_zero.mp h)
    subst hf
    simp [chunksOfAux]
  | succ fuel ih =>
    intro f h
    match f with
    | [] => simp [chunksOfAux]
    | a :: l =>
      have hlen : ((a :: l).drop 128).length ≤ fuel := by
        simp only [List.length_drop, List.length_cons] at *
        omega
      simp only [chunksOfAux, List.length_cons, ih ((a :: l).drop 128) hlen,
        List.length_drop]
      omega

lemma numBlocks_eq (f : List Nat) : numBlocks f = (f.length + 127) / 128 :=
  chunksOfAux_length f.length f le_rfl

lemma lt_numBlocks (f : List Nat) (i : Nat) :
    i < numBlocks f ↔ 128 * i < f.length := by
  rw [numBlocks_eq]
  omega

lemma sendFramesAux_get? :
    ∀ (cs : List (List Nat)) (b i : Nat),
      (sendFramesAux b cs).get? i
        = (cs.get? i).map (fun c => xmodemFrame (b + i) (padChunk c)) := by
  intro cs
  induction cs with
  | nil => intro b i; simp [sendFramesAux]
  | cons c cs ih =>
    intro b i
    match i with
    | 0 => simp [sendFramesAux]
    | i + 1 =>
      have harith : b + 1 + i = b + (i + 1) := by omega
      simp only [sendFramesAux, List.get?_cons_succ, ih ((b + 1) % 256) i]
      cases hcg : cs.get? i with
      | none => simp
      | some c2 =>
        simp only [Option.map_some']
        have : xmodemFrame ((b + 1) % 256 + i) (padChunk c2)
            = xmodemFrame (b + (i + 1)) (padChunk c2) := by
          simp only [xmodemFrame, Nat.mod_add_mod, harith]
        rw [this]

lemma xmodemSendFrames_get? (f : List Nat) (i : Nat) :
    (xmodemSendFrames f).get? i
      = if 128 * i < f.length then some (xmodemFrame (i + 1) (specData f i)) else none := by
  have hpad : padChunk (specChunk f i) = specData f i := rfl
  rw [xmodemSendFrames, sendFramesAux_get?, chunksOf_get?]
  by_cases hc : 128 * i < f.length
  · rw [if_pos hc, if_pos hc]
    simp only [Option.map_some']
    rw [show (1 : Nat) + i = i + 1 by omega]
    rfl
  · rw [if_neg hc, if_neg hc]
    rfl

end RetroSerialHub

namespace RetroSerialHub

/-! ## Properties of the trailing-pad strip -/

lemma dropWhile_replicate_append (p : Nat → Bool) (a : Nat) (hp : p a = true) :
    ∀ (k : Nat) (t : List Nat),
      List.dropWhile p (List.replicate k a ++ t) = List.dropWhile p t := by
  intro k
  induction k with
  | zero => intro t; simp
  | succ k ih =>
    intro t
    simp [List.replicate_succ, List.dropWhile_cons, hp, ih]

lemma strip_append_replicate (l : List Nat) (k : Nat) :
    stripTrailingPad (l ++ List.replicate k 0x1A) = stripTrailingPad l := by
  unfold stripTrailingPad
  rw [List.reverse_append, List.reverse_replicate,
    dropWhile_replicate_append _ _ (by decide)]

lemma head?_dropWhile_false (p : Nat → Bool) :
    ∀ (l : List Nat) (b : Nat), (List.dropWhile p l).head? = some b → p b = false := by
  intro l
  induction l with
  | nil => intro b h; simp at h
  | cons a t ih =>
    intro b h
    rw [List.dropWhile_cons] at h
    split at h
    · exact ih b h
    · next hpa =>
      simp only [List.head?_cons, Option.some.injEq] at h
      subst h
      simpa using hpa

lemma strip_getLast?_ne (l : List Nat) :
    (stripTrailingPad l).getLast? ≠ some 0x1A := by
  intro hcontra
  unfold stripTrailingPad at hcontra
  rw [← List.head?_reverse, List.reverse_reverse] at hcontra
  have := head?_dropWhile_false (fun b => b == 0x1A) l.reverse _ hcontra
  simp at this

lemma strip_eq_self (l : List Nat) (h : l.getLast? ≠ some 0x1A) :
    stripTrailingPad l = l := by
  unfold stripTrailingPad
  cases hr : l.reverse with
  | nil =>
    have hl : l = [] := by simpa using congrArg List.reverse hr
    subst hl
    simp
  | cons b t =>
    have hlast : l.getLast? = some b := by
      rw [← List.head?_reverse, hr]
      rfl
    have hb : ¬ b = 0x1A := by
      intro hb
      exact h (by rw [hlast, hb])
    have hdw : List.dropWhile (fun x => x == (0x1A : Nat)) (b :: t) = b :: t := by
      rw [List.dropWhile_cons, if_neg (by simpa using hb)]
    rw [hdw, ← List.reverse_reverse l, hr]

/-! ## The receiver consumes well-formed frames -/

lemma padChunk_length (c : List Nat) (h : c.length ≤ 128) :
    (padChunk c).length = 128 := by
  simp only [padChunk, List.length_append, List.length_replicate]
  omega

lemma chunksOfAux_mem_length :
    ∀ (fuel : Nat) (f c : List Nat), c ∈ chunksOfAux fuel f → c.length ≤ 128 := by
  intro fuel
  induction fuel with
  | zero => intro f c h; simp [chunksOfAux] at h
  | succ fuel ih =>
    intro f c h
    match f, h with
    | [], h => simp [chunksOfAux] at h
    | a :: l, h =>
      simp only [chunksOfAux, List.mem_cons] at h
      rcases h with h | h
      · subst h
        simp
      · exact ih _ _ h

/-- Consuming one well-formed frame advances the receiver exactly as
the sender advances. -/
lemma receive_one_frame_aux (fuel b : Nat) (acc data rest : List Nat)
    (hlen : data.length = 128) :
    xmodem_receive_aux (fuel + 1) b acc (xmodemFrame b data ++ rest)
      = xmodem_receive_aux fuel ((b + 1) % 256) (acc ++ data) rest := by
  have hA : ((b % 256) :: (255 - b % 256) :: (data ++ [data.sum % 256])).length = 131 := by
    simp [hlen]
  have hfr : xmodemFrame b data ++ rest
      = 1 :: (((b % 256) :: (255 - b % 256) :: (data ++ [data.sum % 256])) ++ rest) := by
    simp [xmodemFrame, SOH]
  have h2 : ((b % 256) :: (255 - b % 256) :: (data ++ [data.sum % 256])).drop 2
      = data ++ [data.sum % 256] := rfl
  have h4 : ((b % 256) :: (255 - b % 256) :: (data ++ [data.sum % 256])).getLastD 0
      = data.sum % 256 := by
    simp only [List.getLastD_cons]
    simp [List.getLastD_eq_getLast?]
  rw [hfr]
  simp only [xmodem_receive_aux, List.take_left' hA, List.drop_left' hA, SOH, EOT, CAN]
  simp only [if_true, hA, h2, h4, List.dropLast_concat, List.getD_cons_zero,
    List.getD_cons_succ]
  norm_num

end RetroSerialHub

namespace RetroSerialHub

lemma chunksOfAux_nil (fuel : Nat) : chunksOfAux fuel [] = [] := by
  cases fuel <;> rfl

/-- Feeding the sender's frames followed by EOT to the receive loop
commits the stripped concatenation of the padded chunks. -/
lemma receive_send_frames :
    ∀ (cs : List (List Nat)) (b : Nat) (acc : List Nat) (fuel : Nat),
      (∀ c ∈ cs, c.length ≤ 128) →
      ((sendFramesAux b cs).flatten ++ [EOT]).length ≤ fuel →
      xmodem_receive_aux fuel b acc ((sendFramesAux b cs).flatten ++ [EOT])
        = .committed (stripTrailingPad (acc ++ (cs.map padChunk).flatten)) := by
  intro cs
  induction cs with
  | nil =>
    intro b acc fuel hcs hfuel
    simp only [sendFramesAux, List.flatten_nil, List.nil_append] at hfuel ⊢
    match fuel, hfuel with
    | fuel + 1, _ =>
      simp [xmodem_receive_aux, EOT, SOH, CAN]
  | cons c cs ih =>
    intro b acc fuel hcs hfuel
    have hclen : c.length ≤ 128 := hcs c (by simp)
    have hplen : (padChunk c).length = 128 := padChunk_length c hclen
    have hassoc : (sendFramesAux b (c :: cs)).flatten ++ [EOT]
        = xmodemFrame b (padChunk c) ++ ((sendFramesAux ((b + 1) % 256) cs).flatten ++ [EOT]) := by
      simp [sendFramesAux, List.append_assoc]
    rw [hassoc] at hfuel ⊢
    have hframelen : (xmodemFrame b (padChunk c)).length = 132 := by
      simp [xmodemFrame, hplen]
    match fuel, hfuel with
    | fuel + 1, hfuel =>
      rw [receive_one_frame_aux fuel b acc (padChunk c) _ hplen]
      rw [ih ((b + 1) % 256) (acc ++ padChunk c) fuel (fun d hd => hcs d (by simp [hd]))
        (by simp [List.length_append, hframelen] at hfuel ⊢; omega)]
      simp [List.append_assoc]

lemma chunks_flatten_pad :
    ∀ (fuel : Nat) (f : List Nat), f.length ≤ fuel →
      ∃ k, ((chunksOfAux fuel f).map padChunk).flatten = f ++ List.replicate k 0x1A := by
  intro fuel
  induction fuel with
  | zero =>
    intro f h
    have hf : f = [] := List.length_eq_zero.mp (Nat.le_zero.mp h)
    subst hf
    exact ⟨0, by simp [chunksOfAux]⟩
  | succ fuel ih =>
    intro f h
    match f with
    | [] => exact ⟨0, by simp [chunksOfAux]⟩
    | a :: l =>
      by_cases hlen : (a :: l).length ≤ 128
      · have hdrop : (a :: l).drop 128 = [] := List.drop_eq_nil_of_le hlen
        have htake : (a :: l).take 128 = a :: l := List.take_of_length_le hlen
        refine ⟨128 - (a :: l).length, ?_⟩
        simp [chunksOfAux, hdrop, htake, chunksOfAux_nil, padChunk]
      · have hfuel2 : ((a :: l).drop 128).length ≤ fuel := by
          simp only [List.length_drop, List.length_cons] at h ⊢
          omega
        obtain ⟨k, hk⟩ := ih ((a :: l).drop 128) hfuel2
        refine ⟨k, ?_⟩
        have htlen : ((a :: l).take 128).length = 128 := by
          simp only [List.length_take]
          omega
        have hpad : padChunk ((a :: l).take 128) = (a :: l).take 128 := by
          simp only [padChunk, htlen]
          simp
        simp only [chunksOfAux, List.map_cons, List.flatten_cons, hpad, hk]
        rw [← List.append_assoc, List.take_append_drop]

/-- The receiver reconstructs exactly the sent file with its trailing
0x1A bytes stripped. -/
lemma roundtrip_eq_strip (f : List Nat) :
    xmodemRoundTrip f = .committed (stripTrailingPad f) := by
  unfold xmodemRoundTrip xmodem_receive xmodem_receive_from xmodemSendFrames
  rw [receive_send_frames (chunksOf f) 1 [] _
    (fun c hc => chunksOfAux_mem_length f.length f c hc) le_rfl]
  obtain ⟨k, hk⟩ := chunks_flatten_pad f.length f le_rfl
  rw [List.nil_append]
  unfold chunksOf
  rw [hk, strip_append_replicate]

/-- Any committed output of the receive loop has been through the
trailing-0x1A strip, hence never ends in 0x1A. -/
lemma receive_committed_stripped :
    ∀ (fuel b : Nat) (acc input out : List Nat),
      xmodem_receive_aux fuel b acc input = .committed out →
      out.getLast? ≠ some 0x1A := by
  intro fuel
  induction fuel with
  | zero =>
    intro b acc input out h
    simp [xmodem_receive_aux] at h
  | succ fuel ih =>
    intro b acc input out h
    match input with
    | [] => simp [xmodem_receive_aux] at h
    | c :: rest =>
      simp only [xmodem_receive_aux] at h
      split at h
      · split at h
        · exact ih _ _ _ _ h
        · split at h
          · exact ih _ _ _ _ h
          · split at h
            · exact ih _ _ _ _ h
            · exact ih _ _ _ _ h
      · split at h
        · injection h with h2
          subst h2
          exact strip_getLast?_ne acc
        · split at h
          · exact absurd h (by simp)
          · exact ih _ _ _ _ h

end RetroSerialHub

namespace RetroSerialHub

/-! ## Wait-loop helpers -/

lemma xmodem_receive_wait_replicate (n : Nat) :
    xmodem_receive_wait (List.replicate n none) = .stillRunning := by
  induction n with
  | zero => rfl
  | succ n ih => simp [List.replicate_succ, xmodem_receive_wait, ih]

lemma ymodem_header_ack_wait_replicate (n : Nat) :
    ymodem_header_ack_wait (List.replicate n none) = .stillRunning := by
  induction n with
  | zero => rfl
  | succ n ih => simp [List.replicate_succ, ymodem_header_ack_wait, ih]

lemma ymodem_eot_ack_wait_replicate (n : Nat) :
    ymodem_eot_ack_wait (List.replicate n none) = .stillRunning := by
  induction n with
  | zero => rfl
  | succ n ih => simp [List.replicate_succ, ymodem_eot_ack_wait, ih]

lemma xmodem_send_ack_wait_none :
    ∀ (iters : List (Option Nat)), (∀ x ∈ iters, x = none) →
      xmodem_send_ack_wait iters = .timedOutAborted := by
  intro iters
  induction iters with
  | nil => intro _; rfl
  | cons x rest ih =>
    intro h
    have hx : x = none := h x (by simp)
    subst hx
    simp only [xmodem_send_ack_wait]
    exact ih (fun y hy => h y (by simp [hy]))

/-! ## pyReplace helpers -/

lemma pyReplaceAux_not_mem (p : Nat) (ps rep : List Nat) :
    ∀ (fuel : Nat) (s : List Nat), p ∉ s → pyReplaceAux fuel s (p :: ps) rep = s := by
  intro fuel
  induction fuel with
  | zero => intro s h; cases s <;> rfl
  | succ fuel ih =>
    intro s h
    match s with
    | [] => rfl
    | a :: s2 =>
      have hap : ¬ (p == a) = true := by
        simp only [beq_iff_eq]
        intro hpa
        exact h (by simp [hpa])
      have hpre : (p :: ps).isPrefixOf (a :: s2) = false := by
        simp [List.isPrefixOf, hap]
      simp only [pyReplaceAux, hpre, Bool.false_and, Bool.false_eq_true, if_false]
      rw [ih s2 (fun hp => h (by simp [hp]))]

lemma pyReplace_not_mem (p : Nat) (ps rep : List Nat) (s : List Nat) (h : p ∉ s) :
    pyReplace s (p :: ps) rep = s :=
  pyReplaceAux_not_mem p ps rep s.length s h

/-! ## Registry helpers -/

lemma mem_ownedPorts_filter (l : List (String × String)) (p q : String) :
    q ∈ (l.filter (fun e => e.1 != p)).map Prod.fst ↔ q ∈ l.map Prod.fst ∧ q ≠ p := by
  simp only [List.mem_map, List.mem_filter, bne_iff_ne]
  constructor
  · rintro ⟨e, ⟨he, hne⟩, rfl⟩
    exact ⟨⟨e, he, rfl⟩, hne⟩
  · rintro ⟨⟨e, he, rfl⟩, hne⟩
    exact ⟨e, ⟨he, hne⟩, rfl⟩

lemma mem_surrender_add (s : List String) (p q : String) :
    q ∈ (if p ∈ s then s else p :: s) ↔ q ∈ s ∨ q = p := by
  split
  · next h =>
    constructor
    · exact fun hq => Or.inl hq
    · rintro (hq | rfl)
      · exact hq
      · exact h
  · next h =>
    simp only [List.mem_cons]
    constructor
    · rintro (rfl | hq)
      · exact Or.inr rfl
      · exact Or.inl hq
    · rintro (hq | rfl)
      · exact Or.inr hq
      · exact Or.inl rfl

end RetroSerialHub

namespace RetroSerialHub

/-- Claim C4: for every source file, XMODEM send splits it into
128-byte chunks, pads only the final short chunk to 128 bytes with
0x1A filler, and emits for each chunk the frame SOH, block-number mod
256, 255 minus (block-number mod 256), the 128 data bytes, then a
checksum equal to the sum of the 128 data bytes mod 256.  Here the
i-th chunk (0-based) carries block number i+1, its payload is the
i-th 128-byte slice of the file padded with 0x1A exactly when it is
the final short chunk. -/
theorem C4_xmodem_send_framing (f : List Nat) (i : Nat) (h : i < numBlocks f) :
    (xmodemSendFrames f).get? i
      = some (1 :: ((i + 1) % 256) :: (255 - (i + 1) % 256) ::
          (specData f i ++ [(specData f i).sum % 256]))
    ∧ (specData f i).length = 128
    ∧ (i + 1 < numBlocks f → specData f i = specChunk f i)
    ∧ (i + 1 = numBlocks f → specChunk f i = f.drop (128 * i)) := by
  have hc : 128 * i < f.length := (lt_numBlocks f i).mp h
  have hclen : (specChunk f i).length ≤ 128 := by
    simp [specChunk, List.length_take]
  refine ⟨?_, ?_, ?_, ?_⟩
  · rw [xmodemSendFrames_get?, if_pos hc]
    simp [xmodemFrame, SOH]
  · simp only [specData, List.length_append, List.length_replicate]
    omega
  · intro hlt
    have h2 : 128 * (i + 1) < f.length := (lt_numBlocks f (i + 1)).mp hlt
    have hlen128 : (specChunk f i).length = 128 := by
      simp only [specChunk, List.length_take, List.length_drop]
      omega
    simp [specData, hlen128]
  · intro heq
    have h2 : ¬ (i + 1 < numBlocks f) := by omega
    have h3 : ¬ (128 * (i + 1) < f.length) :=
      fun hcon => h2 ((lt_numBlocks f (i + 1)).mpr hcon)
    have h4 : (f.drop (128 * i)).length ≤ 128 := by
      simp only [List.length_drop]
      omega
    exact List.take_of_length_le h4

/-- Witness for C4 at a concrete one-block file. -/
theorem C4_witness :
    (xmodemSendFrames (List.replicate 128 5)).get? 0
      = some (1 :: ((0 + 1) % 256) :: (255 - (0 + 1) % 256) ::
          (specData (List.replicate 128 5) 0 ++ [(specData (List.replicate 128 5) 0).sum % 256]))
    ∧ (specData (List.replicate 128 5) 0).length = 128 :=
  ⟨(C4_xmodem_send_framing (List.replicate 128 5) 0 (by decide)).1,
   (C4_xmodem_send_framing (List.replicate 128 5) 0 (by decide)).2.1⟩

/-- Claim C6 (amended): an ACK advances the block number by
`(block_num + 1) % 256`, with no value skipped, so the frame at index
i carries block number (i+1) mod 256; in particular after block 255
the next block carries number 0, not 1. -/
theorem C6_block_number_wrap (f : List Nat) (i : Nat) (h : i < numBlocks f) :
    ((xmodemSendFrames f).get? i).bind (fun fr => fr.get? 1) = some ((i + 1) % 256) := by
  rw [xmodemSendFrames_get?, if_pos ((lt_numBlocks f i).mp h)]
  simp [xmodemFrame, SOH]

/-- Counterexample for C6 as stated: for a file of 256 full blocks,
the frame at index 255 (the one sent after block 255 was ACKed)
carries block number 0, not 1. -/
theorem C6_counterexample :
    ((xmodemSendFrames bigFile).get? 255).bind (fun fr => fr.get? 1) = some 0
    ∧ some (0 : Nat) ≠ some 1 := by
  constructor
  · rw [xmodemSendFrames_get?,
      if_pos (by simp only [bigFile, List.length_replicate]; norm_num)]
    simp [xmodemFrame, SOH]
  · simp

/-- Witness for C6 at a concrete one-block file. -/
theorem C6_witness :
    ((xmodemSendFrames [9]).get? 0).bind (fun fr => fr.get? 1) = some ((0 + 1) % 256) :=
  C6_block_number_wrap [9] 0 (by decide)

/-- Claim C5 (amended): for every file whose last byte is not 0x1A
(including the empty file), feeding the frames produced by XMODEM send
into XMODEM receive (each block ACKed, EOT ACKed) commits a file equal
to the original; a 150-byte such file yields exactly two data blocks,
block 1 carrying bytes 0-127 unpadded and block 2 carrying bytes
128-149 plus 106 bytes of 0x1A.  (For a file that itself ends in 0x1A
the receiver also strips those bytes, so the round trip is not the
identity; see the counterexample.) -/
theorem C5_xmodem_roundtrip (f : List Nat) (h : f.getLast? ≠ some 0x1A) :
    xmodemRoundTrip f = .committed f
    ∧ (f.length = 150 →
        numBlocks f = 2
        ∧ (xmodemSendFrames f).get? 0
            = some (1 :: 1 :: 254 :: (f.take 128 ++ [(f.take 128).sum % 256]))
        ∧ (xmodemSendFrames f).get? 1
            = some (1 :: 2 :: 253 :: ((f.drop 128 ++ List.replicate 106 0x1A)
                ++ [(f.drop 128 ++ List.replicate 106 0x1A).sum % 256]))) := by
  constructor
  · rw [roundtrip_eq_strip, strip_eq_self f h]
  · intro hlen
    have hb : numBlocks f = 2 := by
      rw [numBlocks_eq, hlen]
    refine ⟨hb, ?_, ?_⟩
    · rw [xmodemSendFrames_get?, if_pos (by omega)]
      have hch : specChunk f 0 = f.take 128 := by
        simp [specChunk]
      have hchlen : (specChunk f 0).length = 128 := by
        rw [hch]
        simp only [List.length_take]
        omega
      have hdata : specData f 0 = f.take 128 := by
        unfold specData
        rw [hchlen, hch]
        simp
      rw [hdata]
      norm_num [xmodemFrame, SOH]
    · rw [xmodemSendFrames_get?, if_pos (by omega)]
      have hdlen : (f.drop 128).length = 22 := by
        simp only [List.length_drop]
        omega
      have hch : specChunk f 1 = f.drop 128 := by
        simp only [specChunk]
        rw [show 128 * 1 = 128 from rfl]
        exact List.take_of_length_le (by omega)
      have hchlen : (specChunk f 1).length = 22 := by
        rw [hch, hdlen]
      have hdata : specData f 1 = f.drop 128 ++ List.replicate 106 0x1A := by
        unfold specData
        rw [hchlen, hch]
      rw [hdata]
      norm_num [xmodemFrame, SOH]

/-- Counterexample for C5 as stated: the one-byte file [0x1A] round
trips to the empty file, not to itself. -/
theorem C5_counterexample :
    xmodemRoundTrip [0x1A] = .committed []
    ∧ RecvResult.committed [] ≠ RecvResult.committed [0x1A] :=
  ⟨by decide, by decide⟩

/-- Witness for C5 at a concrete 150-byte file not ending in 0x1A. -/
theorem C5_witness :
    xmodemRoundTrip sampleFile150 = .committed sampleFile150
    ∧ numBlocks sampleFile150 = 2 := by
  have h := C5_xmodem_roundtrip sampleFile150 (by decide)
  exact ⟨h.1, (h.2 (by decide)).1⟩

/-- Claim C8 (amended): the per-block reply wait of xmodem_send is
deadline-bounded and degrades to a reported timeout abort when no
reply arrives, but xmodem_receive waiting for the next SOH/EOT/CAN
byte, ymodem_send waiting for the header ACK, and ymodem_send waiting
for the final EOT ACK are `while True` loops without any deadline:
after arbitrarily many empty poll iterations (hence arbitrarily much
wall-clock time) each is still running and has reported nothing. -/
theorem C8_wait_deadlines :
    (∀ n : Nat, xmodem_receive_wait (List.replicate n none) = .stillRunning)
    ∧ (∀ n : Nat, ymodem_header_ack_wait (List.replicate n none) = .stillRunning)
    ∧ (∀ n : Nat, ymodem_eot_ack_wait (List.replicate n none) = .stillRunning)
    ∧ (∀ iters : List (Option Nat), (∀ x ∈ iters, x = none) →
        xmodem_send_ack_wait iters = .timedOutAborted) :=
  ⟨xmodem_receive_wait_replicate, ymodem_header_ack_wait_replicate,
   ymodem_eot_ack_wait_replicate, xmodem_send_ack_wait_none⟩

/-- Counterexample for C8 as stated: after 100000 empty poll
iterations (far beyond any 10-20s deadline at the polling cadence of
the bounded loops) the three waits are still running rather than
having degraded to a reported failure. -/
theorem C8_counterexample :
    xmodem_receive_wait (List.replicate 100000 none) = .stillRunning
    ∧ ymodem_header_ack_wait (List.replicate 100000 none) = .stillRunning
    ∧ ymodem_eot_ack_wait (List.replicate 100000 none) = .stillRunning
    ∧ LoopStatus.stillRunning ≠ LoopStatus.exited :=
  ⟨xmodem_receive_wait_replicate 100000, ymodem_header_ack_wait_replicate 100000,
   ymodem_eot_ack_wait_replicate 100000, by decide⟩

/-- Witness for C8 at a concrete reply-less iteration trace. -/
theorem C8_witness :
    xmodem_send_ack_wait [none, none, none] = SendWaitOutcome.timedOutAborted :=
  C8_wait_deadlines.2.2.2 [none, none, none] (by decide)

/-- Claim C10: XMODEM receive commits the destination file only in the
EOT branch — a committed file has always passed the trailing-0x1A
strip and so never ends in 0x1A, even when the sender's original file
ended in 0x1A; on CAN the transfer is cancelled with nothing
committed, and while blocks are still arriving (input exhausted)
nothing is committed either. -/
theorem C10_commit_only_on_eot :
    (∀ (b : Nat) (acc input out : List Nat),
        xmodem_receive_from b acc input = .committed out → out.getLast? ≠ some 0x1A)
    ∧ (∀ (b : Nat) (acc rest : List Nat),
        xmodem_receive_from b acc (CAN :: rest) = .cancelled)
    ∧ (∀ (b : Nat) (acc : List Nat), xmodem_receive_from b acc [] = .starved)
    ∧ xmodemRoundTrip [1, 2, 0x1A] = .committed [1, 2] := by
  refine ⟨?_, ?_, ?_, by decide⟩
  · intro b acc input out h
    exact receive_committed_stripped input.length b acc input out h
  · intro b acc rest
    rw [show xmodem_receive_from b acc (CAN :: rest)
        = xmodem_receive_aux (rest.length + 1) b acc (CAN :: rest) from by
      simp [xmodem_receive_from]]
    simp only [xmodem_receive_aux]
    simp [CAN, SOH, EOT]
  · intro b acc
    rfl

/-- Witness for C10 at concrete inputs. -/
theorem C10_witness :
    ([] : List Nat).getLast? ≠ some 0x1A
    ∧ xmodem_receive_from 5 [7] [CAN] = RecvResult.cancelled :=
  ⟨C10_commit_only_on_eot.1 1 [] [EOT] [] (by decide),
   C10_commit_only_on_eot.2.1 5 [7] []⟩

end RetroSerialHub

namespace RetroSerialHub

/-- Claim C1 (amended): the completed take-over sequence preserves the
not-both-owned-and-surrendered invariant for every port, but the
sequence is not atomic: it adds the port to the surrendered set before
popping it from the owned map, so after its first primitive step the
port is in both collections at once. -/
theorem C1_registry_take_over :
    (∀ (r : Registry) (p q : String), portInvariant r q →
        portInvariant (applyOps r (takeOverOps p)) q)
    ∧ (∀ (r : Registry) (p : String), p ∈ ownedPorts r →
        ¬ portInvariant (applyOps r ((takeOverOps p).take 1)) p) := by
  constructor
  · intro r p q hq hcon
    obtain ⟨ho, hs⟩ := hcon
    have ho2 : q ∈ r.owned.map Prod.fst ∧ q ≠ p := by
      have hm : q ∈ ((r.owned.filter (fun e => e.1 != p)).map Prod.fst) := ho
      exact (mem_ownedPorts_filter r.owned p q).mp hm
    have hs2 : q ∈ r.surrendered ∨ q = p := by
      have hm : q ∈ (if p ∈ r.surrendered then r.surrendered else p :: r.surrendered) := hs
      exact (mem_surrender_add r.surrendered p q).mp hm
    rcases hs2 with hs2 | rfl
    · exact hq ⟨ho2.1, hs2⟩
    · exact ho2.2 rfl
  · intro r p hp hinv
    apply hinv
    refine ⟨hp, ?_⟩
    exact (mem_surrender_add r.surrendered p p).mpr (Or.inr rfl)

/-- Counterexample for C1 as stated: starting from a registry where
COM3 is owned, the intermediate instant of the take-over (after the
surrendered-set add, before the owned-map pop) has COM3 in both
collections. -/
theorem C1_counterexample :
    "COM3" ∈ ownedPorts (applyOps regSample ((takeOverOps "COM3").take 1))
    ∧ "COM3" ∈ (applyOps regSample ((takeOverOps "COM3").take 1)).surrendered := by
  decide

/-- Witness for C1 at the concrete sample registry. -/
theorem C1_witness :
    portInvariant (applyOps regSample (takeOverOps "COM3")) "COM3"
    ∧ ¬ portInvariant (applyOps regSample ((takeOverOps "COM3").take 1)) "COM3" :=
  ⟨C1_registry_take_over.1 regSample "COM3" "COM3" (by unfold portInvariant; decide),
   C1_registry_take_over.2 regSample "COM3" (by decide)⟩

/-- Claim C2 (amended): when an ATM line is dispatched, the session
closes any open remote TCP connection and any bridge serial and
returns to MENU (or exits entirely when its own port is surrendered),
but it never removes the bridged port from the surrendered set — the
surrendered set is left exactly as it was.  Moreover, in bridge-runtime
mode with a live bridge the incoming bytes take the raw-forward route,
which skips line assembly entirely, so an ATM line is never dispatched
there in the first place. -/
theorem C2_atm_dispatch :
    (∀ s : SessionState,
        (atmDispatch s).tcpOpen = false
        ∧ (atmDispatch s).bridgeOpen = false
        ∧ (atmDispatch s).surrendered = s.surrendered
        ∧ (s.ownPort ∈ s.surrendered → (atmDispatch s).exited = true)
        ∧ (s.ownPort ∉ s.surrendered →
            (atmDispatch s).mode = Mode.menu ∧ (atmDispatch s).exited = s.exited))
    ∧ (∀ s : SessionState, s.mode = Mode.combridge → s.bridgeOpen = true →
        routeOf s = ChunkRoute.rawBridgeForward) := by
  constructor
  · intro s
    unfold atmDispatch
    by_cases h : s.ownPort ∈ s.surrendered
    · simp [h]
    · simp [h]
  · intro s h1 h2
    unfold routeOf
    rw [if_pos ⟨h1, h2⟩]

/-- Counterexample for C2 as stated: in a live bridge-runtime session
whose bridged port COM3 is surrendered, the incoming bytes are routed
to the raw bridge forward (so an ATM line is never dispatched), and
even dispatching ATM directly leaves COM3 in the surrendered set — no
restore happens. -/
theorem C2_counterexample :
    routeOf combridgeSample = ChunkRoute.rawBridgeForward
    ∧ combridgeSample.bridgedPort = some "COM3"
    ∧ (atmDispatch combridgeSample).surrendered = ["COM3"] := by
  decide

/-- Witness for C2 at the concrete bridge-runtime session. -/
theorem C2_witness :
    (atmDispatch combridgeSample).tcpOpen = false
    ∧ (atmDispatch combridgeSample).mode = Mode.menu :=
  ⟨(C2_atm_dispatch.1 combridgeSample).1,
   ((C2_atm_dispatch.1 combridgeSample).2.2.2.2 (by decide)).1⟩

/-- Claim C3: the worker stops permanently on a device-not-found
message even after the port has already been opened successfully —
the fatal test of port_worker consults only the exception text, never
whether an open ever succeeded, contradicting both the claim and the
docstring of port_worker ("Only retries if a port was once open and
then lost").  First conjunct: open succeeded, then bridge_loop raised
a SerialException whose text contains FileNotFoundError — the worker
stops with everOpened = true.  Second conjunct: same for a failed
reopen after a successful first pass. -/
theorem C3_device_not_found_fatal_after_open :
    worker_run [.opened (some (true, fnfMsg))]
      = { status := WorkerStatus.stoppedPermanently, everOpened := true }
    ∧ worker_run [.opened none, .openFailed true fnfMsg]
      = { status := WorkerStatus.stoppedPermanently, everOpened := true } :=
  ⟨by decide, by decide⟩

/-- Claim C7 (amended): when the target port was taken over and every
open attempt fails, the bridge reports the error and restarts staging
from the first field (stage 0), but the port stays in the surrendered
set: the failure path performs no restore at all — the resulting
surrendered set is exactly the old one plus the taken-over port. -/
theorem C7_bridge_open_failure (active surrendered : List String) (port : String)
    (openOk : Nat → Bool) (hfail : ∀ i, openOk i = false) :
    ∃ st, bridge_finalize active surrendered port openOk = .reprompt st
      ∧ st.stage = 0
      ∧ (∀ q, q ∈ st.surrendered ↔ (q ∈ surrendered ∨ (q = port ∧ port ∈ active))) := by
  have hfind : (List.range 6).find? openOk = none := by
    rw [List.find?_eq_none]
    intro x _
    simp [hfail x]
  unfold bridge_finalize
  rw [hfind]
  refine ⟨_, rfl, rfl, ?_⟩
  intro q
  by_cases hpa : port ∈ active
  · simp only [if_pos hpa]
    rw [mem_surrender_add]
    constructor
    · rintro (hq | rfl)
      · exact Or.inl hq
      · exact Or.inr ⟨rfl, hpa⟩
    · rintro (hq | ⟨rfl, _⟩)
      · exact Or.inl hq
      · exact Or.inr rfl
  · simp only [if_neg hpa]
    constructor
    · exact fun hq => Or.inl hq
    · rintro (hq | ⟨rfl, hpa2⟩)
      · exact hq
      · exact absurd hpa2 hpa

/-- Counterexample for C7 as stated: COM3 is taken over from its
worker, all six open attempts fail, and the handler restarts staging
with COM3 still surrendered and no restore performed. -/
theorem C7_counterexample :
    bridge_finalize ["COM3"] [] "COM3" (fun _ => false)
      = .reprompt { active := [], surrendered := ["COM3"], stage := 0 } := by
  decide

/-- Witness for C7 at the concrete failing configuration. -/
theorem C7_witness :
    ∃ st, bridge_finalize ["COM3"] [] "COM3" (fun _ => false) = .reprompt st
      ∧ st.stage = 0 ∧ "COM3" ∈ st.surrendered := by
  obtain ⟨st, h1, h2, h3⟩ :=
    C7_bridge_open_failure ["COM3"] [] "COM3" (fun _ => false) (fun _ => rfl)
  exact ⟨st, h1, h2, (h3 "COM3").mpr (Or.inr ⟨rfl, by decide⟩)⟩

/-- Claim C9 (amended): the live per-character passthrough path applies
the same CRLF replace chain as the line-terminated path (which appends
a final CRLF on top of it); it is byte-for-byte identity only on data
containing no CR (0x0D) and no LF (0x0A) bytes, and modifies any data
containing them. -/
theorem C9_raw_passthrough :
    (∀ data : List Nat, (13 : Nat) ∉ data → (10 : Nat) ∉ data →
        handle_raw_input_out data = data)
    ∧ (∀ raw_line : List Nat,
        handle_input_runtime_out raw_line = handle_raw_input_out raw_line ++ [13, 10]) := by
  constructor
  · intro data h13 h10
    unfold handle_raw_input_out
    rw [pyReplace_not_mem 13 [10] _ data h13]
    rw [pyReplace_not_mem 10 [] _ data h10]
    rw [pyReplace_not_mem 13 [] _ data h13]
  · intro raw_line
    rfl

/-- Counterexample for C9 as stated: a lone LF byte is forwarded as
CR LF LF, not unmodified. -/
theorem C9_counterexample :
    handle_raw_input_out [10] = [13, 10, 10] ∧ [13, 10, 10] ≠ [10] :=
  ⟨by decide, by decide⟩

/-- Witness for C9 at concrete CR/LF-free data. -/
theorem C9_witness : handle_raw_input_out [65, 66] = [65, 66] :=
  C9_raw_passthrough.1 [65, 66] (by decide) (by decide)

end RetroSerialHub
